import Mathlib

/-!
Shallow embedding of `the-wild-oasis-s3` (src/src/main.rs): a minimal HTTP
gateway that accepts a multipart file upload and forwards the file's bytes to
an S3-compatible object store.

Modelling choices:
* The process environment is a partial map from variable names to values.
  `std::env::var` returning `Err` is modelled as `none`.
* The multipart body is modelled as the already-parsed list of its fields, in
  arrival order; each field carries optional content-type and file-name
  metadata and its byte payload (bytes as `Nat`s).
* A Rust panic (from `.unwrap()` / `.expect()`) is modelled as the explicit
  `HandlerOutcome.panicked` outcome; a normal return is `HandlerOutcome.response`.
  Both record the list of put-object calls issued to the storage client during
  the request, so that "no storage call is made" is a statement about the code.
* The network behaviour of the S3 client's `send` is a parameter
  `send : PutCall → Bool` (`true` = `Ok`, `false` = an opaque backend `Err`).
-/

namespace WildOasis

/-- The process environment: variable name to value, `none` when unset. -/
abbrev Env : Type := String → Option String

/-- `Credentials::new(key_id, key_secret, None, None, "local")` — static
credentials, no session token, no expiry. -/
structure Credentials where
  accessKeyId : String
  secretAccessKey : String
deriving DecidableEq, Repr

/-- The configuration baked into the S3 `Client` by `get_aws_client`. -/
structure Client where
  region : String
  endpointUrl : String
  credentials : Credentials
  forcePathStyle : Bool
deriving DecidableEq, Repr

/-- `get_aws_client`: reads REGION, ENDPOINT, AWS3_CRED_KEY_ID and
AWS3_CRED_KEY_SECRET from the environment; each `.expect` panics (modelled as
`none`) when its variable is unset. On success builds the client with those
values and path-style addressing. -/
def get_aws_client (env : Env) : Option Client := do
  let region ← env "REGION"
  let endpoint ← env "ENDPOINT"
  let aws3_cred_key_id ← env "AWS3_CRED_KEY_ID"
  let aws3_cred_key_secret ← env "AWS3_CRED_KEY_SECRET"
  some { region := region
         endpointUrl := endpoint
         credentials := { accessKeyId := aws3_cred_key_id
                          secretAccessKey := aws3_cred_key_secret }
         forcePathStyle := true }

/-- `main` binds the listener and serves only after `get_aws_client` returns;
the process serves traffic exactly when client construction did not panic. -/
def serverStarts (env : Env) : Bool :=
  (get_aws_client env).isSome

/-- One parsed multipart field: optional content-type metadata, optional
file-name metadata, and the field's byte payload. -/
structure Field where
  contentType : Option String
  fileName : Option String
  bytes : List Nat
deriving DecidableEq, Repr

/-- One put-object request as assembled in `upload_to_s3`:
`.bucket(bucket_name).body(data).content_type(content_type).key(file_name)`. -/
structure PutCall where
  bucket : String
  body : List Nat
  contentType : String
  key : String
deriving DecidableEq, Repr

/-- The storage backend's reaction to `send`ing a put-object request:
`true` models `Ok(..)`, `false` models an opaque `Err(..)`. -/
abbrev S3Send : Type := PutCall → Bool

/-- `upload_to_s3`: builds the put-object request from bucket, body,
content-type and key, sends it once, and reports the backend's verdict
together with the request that was issued. No retry. -/
def upload_to_s3 (send : S3Send) (file_name : String) (content_type : String)
    (data : List Nat) (bucket_name : String) : Bool × PutCall :=
  let req : PutCall :=
    { bucket := bucket_name, body := data, contentType := content_type, key := file_name }
  (send req, req)

/-- The JSON response body `{ status, message }` (`ResponseMessage` in the
source; `status` is a `u16`, modelled as `Nat`). -/
structure ResponseMessage where
  status : Nat
  message : String
deriving DecidableEq, Repr

/-- A full HTTP response: numeric status code plus JSON body. -/
structure Response where
  code : Nat
  body : ResponseMessage
deriving DecidableEq, Repr

/-- Result of running the upload handler on one request: either a Rust panic
or a structured response; both record the put-object calls issued. -/
inductive HandlerOutcome where
  | panicked (puts : List PutCall)
  | response (resp : Response) (puts : List PutCall)
deriving DecidableEq, Repr

/-- The put-object calls issued during the request, whatever the outcome. -/
def HandlerOutcome.puts : HandlerOutcome → List PutCall
  | .panicked ps => ps
  | .response _ ps => ps

def StatusCode.CREATED : Nat := 201
def StatusCode.BAD_REQUEST : Nat := 400
def StatusCode.NOT_FOUND : Nat := 404
def StatusCode.INTERNAL_SERVER_ERROR : Nat := 500

/-- `handler_404`: the fallback route's fixed response. -/
def handler_404 : Response :=
  { code := StatusCode.NOT_FOUND
    body := { status := StatusCode.NOT_FOUND, message := "404 not found" } }

/-- `get_ping`: the plaintext health-check response. -/
def get_ping : String := "pong!"

/-- `upload_handler`: reads BUCKET_NAME (`.expect` panics when unset), then
runs `while let Some(field) = multipart.next_field().await.unwrap()`. Every
path through the loop body returns or panics, so only the first field is ever
examined: `field.content_type().unwrap()` and `field.file_name().unwrap()`
panic when the metadata is missing; otherwise the bytes are buffered and
`upload_to_s3` is called, with `Ok` mapped to 201 and `Err` to 500. An empty
body falls through the loop to the 400 "No file found" response. -/
def upload_handler (send : S3Send) (env : Env) (multipart : List Field) :
    HandlerOutcome :=
  match env "BUCKET_NAME" with
  | none => .panicked []
  | some bucket_name =>
    match multipart with
    | [] =>
      .response
        { code := StatusCode.BAD_REQUEST
          body := { status := StatusCode.BAD_REQUEST, message := "No file found" } } []
    | field :: _ =>
      match field.contentType with
      | none => .panicked []
      | some content_type =>
        match field.fileName with
        | none => .panicked []
        | some file_name =>
          let data := field.bytes
          let result := upload_to_s3 send file_name content_type data bucket_name
          if result.1 then
            .response
              { code := StatusCode.CREATED
                body := { status := StatusCode.CREATED
                          message := "File uploaded successfully" } } [result.2]
          else
            .response
              { code := StatusCode.INTERNAL_SERVER_ERROR
                body := { status := StatusCode.INTERNAL_SERVER_ERROR
                          message := "Failed to upload file" } } [result.2]

/-! ## Helper lemmas -/

/-- Every path through the loop body returns or panics, so the handler's
outcome on `f :: rest` is its outcome on `[f]`: later fields are never
examined. -/
theorem upload_handler_cons (send : S3Send) (env : Env) (f : Field)
    (rest : List Field) :
    upload_handler send env (f :: rest) = upload_handler send env [f] := by
  unfold upload_handler
  cases env "BUCKET_NAME" <;> rfl

/-- When the bucket is configured and the sole field carries both metadata
items, the handler issues exactly the corresponding put-object call and maps
the backend verdict to 201 or 500. -/
theorem upload_handler_full_field (send : S3Send) (env : Env)
    (bucket ct fn : String) (data : List Nat)
    (hb : env "BUCKET_NAME" = some bucket) :
    upload_handler send env [{ contentType := some ct, fileName := some fn, bytes := data }] =
      (if send { bucket := bucket, body := data, contentType := ct, key := fn } then
        HandlerOutcome.response
          { code := 201, body := { status := 201, message := "File uploaded successfully" } }
          [{ bucket := bucket, body := data, contentType := ct, key := fn }]
      else
        HandlerOutcome.response
          { code := 500, body := { status := 500, message := "Failed to upload file" } }
          [{ bucket := bucket, body := data, contentType := ct, key := fn }]) := by
  unfold upload_handler upload_to_s3
  rw [hb]
  rfl

/-- A first field missing either metadata item makes the handler panic with no
put-object call issued. -/
theorem upload_handler_malformed (send : S3Send) (env : Env) (f : Field)
    (rest : List Field) (h : f.contentType = none ∨ f.fileName = none) :
    (upload_handler send env (f :: rest)).puts = [] := by
  rcases h with h | h
  · cases hb : env "BUCKET_NAME" with
    | none => simp [upload_handler, HandlerOutcome.puts, hb]
    | some bucket => simp [upload_handler, HandlerOutcome.puts, hb, h]
  · cases hb : env "BUCKET_NAME" with
    | none => simp [upload_handler, HandlerOutcome.puts, hb]
    | some bucket =>
      cases hc : f.contentType with
      | none => simp [upload_handler, HandlerOutcome.puts, hb, hc]
      | some ct => simp [upload_handler, HandlerOutcome.puts, hb, hc, h]

/-- The handler issues at most one put-object call on any request. -/
theorem upload_handler_puts_le_one (send : S3Send) (env : Env)
    (fields : List Field) :
    (upload_handler send env fields).puts.length ≤ 1 := by
  cases hb : env "BUCKET_NAME" with
  | none => simp [upload_handler, HandlerOutcome.puts, hb]
  | some bucket =>
    cases fields with
    | nil => simp [upload_handler, HandlerOutcome.puts, hb]
    | cons f rest =>
      cases hc : f.contentType with
      | none => simp [upload_handler, HandlerOutcome.puts, hb, hc]
      | some ct =>
        cases hf : f.fileName with
        | none => simp [upload_handler, HandlerOutcome.puts, hb, hc, hf]
        | some fn =>
          by_cases hs : (upload_to_s3 send fn ct f.bytes bucket).1 = true
          · simp [upload_handler, HandlerOutcome.puts, hb, hc, hf, hs]
          · simp [upload_handler, HandlerOutcome.puts, hb, hc, hf, hs]

/-! ## Concrete environments and inputs used by witnesses -/

/-- An environment configuring only the bucket name. -/
def env0 : Env := fun s => if s = "BUCKET_NAME" then some "bucket-1" else none

/-- An entirely empty environment. -/
def envAbsent : Env := fun _ => none

/-- The four startup variables present but empty; BUCKET_NAME absent. -/
def envNoBucket : Env := fun s =>
  if s = "REGION" ∨ s = "ENDPOINT" ∨ s = "AWS3_CRED_KEY_ID" ∨ s = "AWS3_CRED_KEY_SECRET"
  then some "" else none

/-! ## Claims -/

/-- C1: for a multipart body with exactly one file field carrying both a
filename and a content-type, when the storage backend accepts the request the
handler returns 201 with body {status:201, message:"File uploaded
successfully"} and issues exactly one put-object call whose key is the field's
filename verbatim, whose content-type is the field's content-type, and whose
payload is byte-for-byte the field's bytes. -/
theorem C1_single_file_upload_success (send : S3Send) (env : Env)
    (bucket ct fn : String) (data : List Nat)
    (hb : env "BUCKET_NAME" = some bucket)
    (hs : send { bucket := bucket, body := data, contentType := ct, key := fn } = true) :
    upload_handler send env [{ contentType := some ct, fileName := some fn, bytes := data }] =
      .response { code := 201, body := { status := 201, message := "File uploaded successfully" } }
        [{ bucket := bucket, body := data, contentType := ct, key := fn }] := by
  rw [upload_handler_full_field send env bucket ct fn data hb, if_pos hs]

/-- C1 witness at a concrete one-field body with an accepting backend. -/
theorem C1_witness :
    upload_handler (fun _ => true) env0
      [{ contentType := some "text/plain", fileName := some "notes.txt", bytes := [104, 105] }] =
      .response { code := 201, body := { status := 201, message := "File uploaded successfully" } }
        [{ bucket := "bucket-1", body := [104, 105], contentType := "text/plain",
           key := "notes.txt" }] :=
  C1_single_file_upload_success (fun _ => true) env0 "bucket-1" "text/plain" "notes.txt"
    [104, 105] rfl rfl

/-- C2 as stated is false of the code: with a first field lacking a
content-type and a second field carrying both metadata items, the handler
panics at the first field's `content_type().unwrap()` — it does not skip to
the later complete field and uploads nothing. -/
theorem C2_counterexample :
    upload_handler (fun _ => true) env0
      [{ contentType := none, fileName := some "skipped.txt", bytes := [1] },
       { contentType := some "text/plain", fileName := some "chosen.txt", bytes := [2] }] =
      .panicked [] := rfl

/-- C2 amended: the handler only ever examines the first multipart field —
its result on `f :: rest` equals its result on `[f]`; when the first field has
both metadata items that field is the one uploaded (its put-object call is the
only one issued), and when it lacks either the handler panics without
examining later fields, so a later complete field is never selected. -/
theorem C2_amended_first_field_only (send : S3Send) (env : Env) (f : Field)
    (rest : List Field) (bucket : String)
    (hb : env "BUCKET_NAME" = some bucket) :
    upload_handler send env (f :: rest) = upload_handler send env [f] ∧
    ((f.contentType = none ∨ f.fileName = none) →
      upload_handler send env (f :: rest) = .panicked []) ∧
    (∀ ct fn, f.contentType = some ct → f.fileName = some fn →
      (upload_handler send env (f :: rest)).puts =
        [{ bucket := bucket, body := f.bytes, contentType := ct, key := fn }]) := by
  refine ⟨upload_handler_cons send env f rest, ?_, ?_⟩
  · rintro (h | h)
    · simp [upload_handler, hb, h]
    · cases hc : f.contentType with
      | none => simp [upload_handler, hb, hc]
      | some ct => simp [upload_handler, hb, hc, h]
  · intro ct fn hc hf
    rw [upload_handler_cons send env f rest]
    obtain ⟨fct, ffn, fb⟩ := f
    simp only at hc hf
    subst hc
    subst hf
    rw [upload_handler_full_field send env bucket ct fn fb hb]
    split <;> rfl

/-- C2 amended, witnessed at a concrete malformed-then-complete body. -/
theorem C2_amended_witness :
    upload_handler (fun _ => true) env0
      [{ contentType := none, fileName := some "first.txt", bytes := [3] },
       { contentType := some "a/b", fileName := some "x.bin", bytes := [4] }] =
      .panicked [] :=
  (C2_amended_first_field_only (fun _ => true) env0
      { contentType := none, fileName := some "first.txt", bytes := [3] }
      [{ contentType := some "a/b", fileName := some "x.bin", bytes := [4] }]
      "bucket-1" rfl).2.1 (Or.inl rfl)

/-- C3: the code violates this claim — with BUCKET_NAME unset, the handler
panics at `.expect("cannot find BUCKET_NAME env")` on a well-formed upload
request instead of returning a structured 500 response. -/
theorem C3_missing_bucket_panics :
    upload_handler (fun _ => true) envAbsent
      [{ contentType := some "text/plain", fileName := some "f.txt", bytes := [9] }] =
      .panicked [] := rfl

/-- C4: the code violates this claim — a first field missing its content-type,
or missing its filename, makes the handler panic at the corresponding
`.unwrap()` instead of returning a structured 400 response. -/
theorem C4_malformed_field_panics :
    upload_handler (fun _ => true) env0
      [{ contentType := none, fileName := some "noct.txt", bytes := [5] }] =
      .panicked [] ∧
    upload_handler (fun _ => true) env0
      [{ contentType := some "text/plain", fileName := none, bytes := [6] }] =
      .panicked [] :=
  ⟨rfl, rfl⟩

/-- C5: when the first field lacks a filename or a content-type, no put-object
call is ever issued for it — processing of the field ends (by panic) with the
list of storage calls empty. -/
theorem C5_no_put_without_metadata (send : S3Send) (env : Env) (f : Field)
    (rest : List Field) (h : f.fileName = none ∨ f.contentType = none) :
    (upload_handler send env (f :: rest)).puts = [] :=
  upload_handler_malformed send env f rest h.symm

/-- C5 witness at a concrete field missing its filename. -/
theorem C5_witness :
    (upload_handler (fun _ => true) env0
      [{ contentType := some "text/plain", fileName := none, bytes := [7] }]).puts = [] :=
  C5_no_put_without_metadata (fun _ => true) env0
    { contentType := some "text/plain", fileName := none, bytes := [7] } [] (Or.inl rfl)

/-- C6: a multipart body with zero fields yields the 400 "No file found"
response with no put-object call issued. -/
theorem C6_empty_multipart_400 (send : S3Send) (env : Env) (bucket : String)
    (hb : env "BUCKET_NAME" = some bucket) :
    upload_handler send env [] =
      .response { code := 400, body := { status := 400, message := "No file found" } } [] := by
  unfold upload_handler
  rw [hb]
  rfl

/-- C6 witness at the concrete empty body. -/
theorem C6_witness :
    upload_handler (fun _ => true) env0 [] =
      .response { code := 400, body := { status := 400, message := "No file found" } } [] :=
  C6_empty_multipart_400 (fun _ => true) env0 "bucket-1" rfl

/-- C7: for every multipart body whose first file field is well-formed,
trailing fields included, when the backend rejects the put-object call the
handler returns — normally, without panicking and without retrying — the 500
response {status:500, message:"Failed to upload file"}, having issued exactly
that one put-object call. -/
theorem C7_backend_failure_500 (send : S3Send) (env : Env)
    (bucket ct fn : String) (data : List Nat) (rest : List Field)
    (hb : env "BUCKET_NAME" = some bucket)
    (hs : send { bucket := bucket, body := data, contentType := ct, key := fn } = false) :
    upload_handler send env
        ({ contentType := some ct, fileName := some fn, bytes := data } :: rest) =
      .response { code := 500, body := { status := 500, message := "Failed to upload file" } }
        [{ bucket := bucket, body := data, contentType := ct, key := fn }] := by
  rw [upload_handler_cons send env _ rest,
    upload_handler_full_field send env bucket ct fn data hb, if_neg (by simp [hs])]

/-- C7 witness at a concrete two-field body with a rejecting backend. -/
theorem C7_witness :
    upload_handler (fun _ => false) env0
      [{ contentType := some "text/plain", fileName := some "err.txt", bytes := [8] },
       { contentType := some "application/json", fileName := some "extra.json",
         bytes := [1, 2] }] =
      .response { code := 500, body := { status := 500, message := "Failed to upload file" } }
        [{ bucket := "bucket-1", body := [8], contentType := "text/plain", key := "err.txt" }] :=
  C7_backend_failure_500 (fun _ => false) env0 "bucket-1" "text/plain" "err.txt" [8]
    [{ contentType := some "application/json", fileName := some "extra.json", bytes := [1, 2] }]
    rfl rfl

/-- C8 as stated is false of the code: with the four startup variables set to
the empty string and BUCKET_NAME entirely absent, `get_aws_client` succeeds
and the process serves traffic — startup checks neither emptiness nor the
bucket name. -/
theorem C8_counterexample :
    envNoBucket "BUCKET_NAME" = none ∧ envNoBucket "REGION" = some "" ∧
    serverStarts envNoBucket = true :=
  ⟨rfl, rfl, rfl⟩

/-- C8 amended: the process serves traffic exactly when the four startup
variables REGION, ENDPOINT, AWS3_CRED_KEY_ID and AWS3_CRED_KEY_SECRET are
present (emptiness is never checked); BUCKET_NAME is not read at startup but
per upload request, and its absence makes that request's handler panic. -/
theorem C8_amended_startup (env : Env) :
    (serverStarts env = true ↔
      (env "REGION").isSome ∧ (env "ENDPOINT").isSome ∧
      (env "AWS3_CRED_KEY_ID").isSome ∧ (env "AWS3_CRED_KEY_SECRET").isSome) ∧
    (env "BUCKET_NAME" = none →
      ∀ send fields, upload_handler send env fields = .panicked []) := by
  constructor
  · unfold serverStarts get_aws_client
    cases env "REGION" <;> cases env "ENDPOINT" <;>
      cases env "AWS3_CRED_KEY_ID" <;> cases env "AWS3_CRED_KEY_SECRET" <;> simp
  · intro hb send fields
    unfold upload_handler
    rw [hb]

/-- C8 amended, witnessed: with no environment at all, an upload request
panics at the BUCKET_NAME read. -/
theorem C8_amended_witness :
    upload_handler (fun _ => false) envAbsent [] = .panicked [] :=
  (C8_amended_startup envAbsent).2 rfl (fun _ => false) []

/-- C9: every JSON response the server produces — the 201 success, the 400
no-file and the 500 upload-failure from the upload handler, and the 404
fallback — carries a numeric `status` body field equal to the HTTP status
code of the response, together with a nonempty human-readable `message`. -/
theorem C9_body_mirrors_status (send : S3Send) (env : Env)
    (fields : List Field) (r : Response) (ps : List PutCall)
    (h : upload_handler send env fields = .response r ps) :
    (r.body.status = r.code ∧ r.body.message ≠ "") ∧
    (handler_404.body.status = handler_404.code ∧ handler_404.body.message ≠ "") := by
  refine ⟨?_, rfl, by decide⟩
  unfold upload_handler upload_to_s3 at h
  dsimp only at h
  repeat' split at h
  any_goals exact HandlerOutcome.noConfusion h
  all_goals injection h with h1 h2
  all_goals subst h1
  all_goals exact ⟨rfl, by decide⟩

/-- C9 witness, instantiated at the concrete empty body. -/
theorem C9_witness :
    ((({ code := 400, body := { status := 400, message := "No file found" } } :
        Response)).body.status =
      (({ code := 400, body := { status := 400, message := "No file found" } } :
        Response)).code ∧
      (({ code := 400, body := { status := 400, message := "No file found" } } :
        Response)).body.message ≠ "") ∧
    (handler_404.body.status = handler_404.code ∧ handler_404.body.message ≠ "") :=
  C9_body_mirrors_status (fun _ => true) env0 [] _ [] rfl

/-- C10: with the bucket configured and a well-formed first field, the handler
result on `f :: rest` equals its result on `[f]` alone, so no later field is
examined whatever the upload's outcome; when the backend rejects the put the
handler immediately returns the 500 response having issued that single call;
and on any request whatsoever at most one put-object call is issued. -/
theorem C10_single_field_short_circuit (send : S3Send) (env : Env)
    (bucket ct fn : String) (data : List Nat) (rest : List Field)
    (hb : env "BUCKET_NAME" = some bucket) :
    (upload_handler send env
        ({ contentType := some ct, fileName := some fn, bytes := data } :: rest) =
      upload_handler send env
        [{ contentType := some ct, fileName := some fn, bytes := data }]) ∧
    (send { bucket := bucket, body := data, contentType := ct, key := fn } = false →
      upload_handler send env
          ({ contentType := some ct, fileName := some fn, bytes := data } :: rest) =
        .response { code := 500, body := { status := 500, message := "Failed to upload file" } }
          [{ bucket := bucket, body := data, contentType := ct, key := fn }]) ∧
    (∀ fields : List Field, (upload_handler send env fields).puts.length ≤ 1) := by
  refine ⟨upload_handler_cons send env _ rest, ?_,
    fun fields => upload_handler_puts_le_one send env fields⟩
  intro hs
  rw [upload_handler_cons send env _ rest,
    upload_handler_full_field send env bucket ct fn data hb, if_neg (by simp [hs])]

/-- C10 witness: a two-field body with a rejecting backend stops at the first
field with the 500 response and exactly one put-object call. -/
theorem C10_witness :
    upload_handler (fun _ => false) env0
      [{ contentType := some "image/png", fileName := some "pic.png", bytes := [0, 255] },
       { contentType := some "a", fileName := some "b", bytes := [] }] =
      .response { code := 500, body := { status := 500, message := "Failed to upload file" } }
        [{ bucket := "bucket-1", body := [0, 255], contentType := "image/png",
           key := "pic.png" }] :=
  (C10_single_field_short_circuit (fun _ => false) env0 "bucket-1" "image/png" "pic.png"
    [0, 255] [{ contentType := some "a", fileName := some "b", bytes := [] }] rfl).2.1 rfl

end WildOasis
